import Mathlib

/-!
Verification of the summit-api client helper (src/api-helper.js).

The module is a thin authenticated REST client: a credential resolver
(`getToken`), a generic request primitive (`apiCall`) and one exported
wrapper per backend endpoint.  We embed the JavaScript shallowly:

* JSON values are the inductive `Json`; JavaScript truthiness, property
  access, string coercion and `JSON.stringify` are modelled explicitly.
* The ambient effects of one call are gathered in `Env`: the identity
  provider session (`auth.currentUser` resolving to a token), the
  `VITE_API_URL` environment variable, and the HTTP response the server
  gives to the single `fetch` of that call.
* `apiCall` returns the JavaScript outcome (a resolved JSON value or a
  raised `Error` carrying a message) together with the list of HTTP
  requests issued during the call, so that claims about headers, bodies
  and the number of network calls are statable.
-/

namespace SummitApi

/-- JSON values, as produced by `res.json()` and consumed by
`JSON.stringify`.  Objects are ordered key/value lists, matching the
insertion order that JavaScript preserves and `JSON.stringify` emits. -/
inductive Json where
  | null : Json
  | bool : Bool → Json
  | num : Int → Json
  | str : String → Json
  | arr : List Json → Json
  | obj : List (String × Json) → Json

/-- JavaScript truthiness of a JSON value: `null`, `false`, `0` and the
empty string are falsy; every array and object is truthy. -/
def truthy : Json → Bool
  | .null => false
  | .bool b => b
  | .num n => n != 0
  | .str s => s != ""
  | .arr _ => true
  | .obj _ => true

/-- A raised JavaScript `Error` (or `TypeError`), identified by its
message. -/
structure JsError where
  message : String
deriving DecidableEq

/-- The TypeError JavaScript throws for property access on `null`
(engines phrase the message this way; only its distinctness from the
messages the program constructs matters below). -/
def typeErrorNullRead (k : String) : JsError :=
  ⟨"TypeError: Cannot read properties of null (reading " ++ k ++ ")"⟩

/-- JavaScript property access `v.k` on a parsed JSON value: a field
lookup on an object (`none` is `undefined`); on `null` it throws a
TypeError; on any other value (number, string, boolean, array) the
primitive is boxed and an absent property reads as `undefined`.
(`res.json()` can produce `null` but never `undefined`.) -/
def jsGet : Json → String → Except JsError (Option Json)
  | .null, k => .error (typeErrorNullRead k)
  | .obj kvs, k => .ok (kvs.lookup k)
  | _, _ => .ok none

mutual
/-- JavaScript string coercion `String(v)`, used by template literals and
by the `Error` constructor: arrays join their elements with a comma
(`null` elements print as the empty string), plain objects print as
`[object Object]`. -/
def jsToString : Json → String
  | .null => "null"
  | .bool true => "true"
  | .bool false => "false"
  | .num n => toString n
  | .str s => s
  | .arr xs => jsToStringElems xs
  | .obj _ => "[object Object]"

def jsToStringElems : List Json → String
  | [] => ""
  | [Json.null] => ""
  | [x] => jsToString x
  | Json.null :: xs => "," ++ jsToStringElems xs
  | x :: xs => jsToString x ++ "," ++ jsToStringElems xs
end

/-- One hexadecimal digit, for `\u00XX` escapes. -/
def hexDigit (n : Nat) : Char :=
  if n < 10 then Char.ofNat (48 + n) else Char.ofNat (87 + n)

/-- The escaping `JSON.stringify` applies inside a quoted string. -/
def escapeChar (c : Char) : String :=
  if c = '"' then "\\\""
  else if c = '\\' then "\\\\"
  else if c = '\n' then "\\n"
  else if c = '\r' then "\\r"
  else if c = '\t' then "\\t"
  else if c = '\x08' then "\\b"
  else if c = '\x0c' then "\\f"
  else if c.toNat < 32 then
    "\\u00" ++ String.mk [hexDigit (c.toNat / 16), hexDigit (c.toNat % 16)]
  else String.singleton c

/-- A quoted, escaped JSON string literal. -/
def quoteString (s : String) : String :=
  "\"" ++ String.join (s.data.map escapeChar) ++ "\""

mutual
/-- `JSON.stringify`, restricted to the JSON values of this model. -/
def stringify : Json → String
  | .null => "null"
  | .bool true => "true"
  | .bool false => "false"
  | .num n => toString n
  | .str s => quoteString s
  | .arr xs => "[" ++ stringifyElems xs ++ "]"
  | .obj kvs => "\x7b" ++ stringifyFields kvs ++ "\x7d"

def stringifyElems : List Json → String
  | [] => ""
  | [x] => stringify x
  | x :: xs => stringify x ++ "," ++ stringifyElems xs

def stringifyFields : List (String × Json) → String
  | [] => ""
  | [kv] => quoteString kv.1 ++ ":" ++ stringify kv.2
  | kv :: kvs => quoteString kv.1 ++ ":" ++ stringify kv.2 ++ "," ++ stringifyFields kvs
end

/-- HTTP methods.  The data model admits DELETE; the wrappers only ever
use GET, POST and PUT. -/
inductive Method where
  | GET : Method
  | POST : Method
  | PUT : Method
  | DELETE : Method
deriving DecidableEq

/-- The argument triple a wrapper hands to `apiCall`: the JavaScript
call `apiCall(method, endpoint, body)`, with `body` defaulting to
`null` exactly as in the source. -/
structure Call where
  method : Method
  endpoint : String
  body : Json := Json.null

/-- An HTTP request as handed to `fetch`: full URL, method, header list
and optional serialized body. -/
structure Request where
  url : String
  method : Method
  headers : List (String × String)
  body : Option String

/-- The HTTP response the server returns: status code and the JSON value
`res.json()` parses the body to.  (A body that fails to parse raises a
transport error upstream of the logic verified here.) -/
structure Response where
  status : Nat
  body : Json

/-- `res.ok` of the Fetch API: status in the inclusive range 200–299. -/
def resOk (r : Response) : Bool := decide (200 ≤ r.status ∧ r.status ≤ 299)

/-- The ambient world of one call: the identity-provider session
(`auth.currentUser`; `some t` means a user is signed in and
`user.getIdToken()` resolves to `t`), the `VITE_API_URL` environment
variable, and the response the server gives to the call's fetch. -/
structure Env where
  currentUser : Option String
  viteApiUrl : Option String
  resp : Response

/-- `API_URL = import.meta.env.VITE_API_URL || 'http://localhost:8000'` -/
def API_URL (vite : Option String) : String :=
  match vite with
  | some s => if s != "" then s else "http://localhost:8000"
  | none => "http://localhost:8000"

/-- `getToken`: read `auth.currentUser`; if no user is signed in, throw
`Error('Not authenticated')`, otherwise resolve the user's ID token. -/
def getToken (currentUser : Option String) : Except JsError String :=
  match currentUser with
  | none => .error ⟨"Not authenticated"⟩
  | some t => .ok t

/-- `d || 'API error'` applied to the already-read `data.detail`: the
field's value coerced to a string by the `Error` constructor when it is
present (`some`) and truthy, else the fallback message. -/
def detailOr (d : Option Json) : String :=
  match d with
  | some v => if truthy v then jsToString v else "API error"
  | none => "API error"

/-- `apiCall`: resolve the token (propagating the authentication error
before any fetch), build the options object with the two fixed headers
and — only if `body` is truthy — the stringified body, issue the single
fetch, parse the response as JSON, and either throw
`Error(data.detail || 'API error')` on a non-ok status or resolve with
the parsed body.  On the non-ok path `data.detail` is evaluated first:
when `data` is JSON `null` that property access itself throws a
TypeError, so the `Error` is never constructed.  The second component
lists the requests fetched. -/
def apiCall (env : Env) (c : Call) : Except JsError Json × List Request :=
  match getToken env.currentUser with
  | .error e => (.error e, [])
  | .ok token =>
    let req : Request :=
      { url := API_URL env.viteApiUrl ++ c.endpoint
        method := c.method
        headers := [("Content-Type", "application/json"),
                    ("Authorization", "Bearer " ++ token)]
        body := if truthy c.body then some (stringify c.body) else none }
    let data := env.resp.body
    (if !resOk env.resp then
        match jsGet data "detail" with
        | .error e => .error e
        | .ok d => .error ⟨detailOr d⟩
      else .ok data, [req])

/-! The exported wrappers.  Each is the `Call` the JavaScript wrapper
passes to `apiCall`; arguments are JSON values, and template-literal
interpolation uses `jsToString`, matching JavaScript coercion.  Optional
parameters carry their source defaults. -/

def verifyToken : Call := ⟨.POST, "/auth/verify", .null⟩

def timeIn (time_in status : Json) : Call :=
  ⟨.POST, "/attendance/time-in", .obj [("time_in", time_in), ("status", status)]⟩

def timeOut (time_out total_hours : Json) (extra_hours : Json := .num 0) : Call :=
  ⟨.POST, "/attendance/time-out",
    .obj [("time_out", time_out), ("total_hours", total_hours),
          ("extra_hours", extra_hours)]⟩

def getMyAttendance : Call := ⟨.GET, "/attendance/me", .null⟩

def getAllAttendance (date : Json := .null) : Call :=
  ⟨.GET, "/attendance/all" ++ (if truthy date then "?date=" ++ jsToString date else ""),
    .null⟩

def bulkTimeOut (date employee_uids : Json) : Call :=
  ⟨.POST, "/attendance/bulk-timeout",
    .obj [("date", date), ("employee_uids", employee_uids)]⟩

def fileLeave (type start_date end_date reason : Json) : Call :=
  ⟨.POST, "/leave",
    .obj [("type", type), ("start_date", start_date),
          ("end_date", end_date), ("reason", reason)]⟩

def getMyLeave : Call := ⟨.GET, "/leave/me", .null⟩

def getAllLeave : Call := ⟨.GET, "/leave/all", .null⟩

def updateLeaveStatus (uid leaveId status : Json) : Call :=
  ⟨.PUT, "/leave/" ++ jsToString uid ++ "/" ++ jsToString leaveId ++ "/status",
    .obj [("status", status)]⟩

def fileOvertime (date hours reason : Json) : Call :=
  ⟨.POST, "/overtime", .obj [("date", date), ("hours", hours), ("reason", reason)]⟩

def getMyOvertime : Call := ⟨.GET, "/overtime/me", .null⟩

def getAllOvertime : Call := ⟨.GET, "/overtime/all", .null⟩

def updateOTStatus (uid otId status : Json) : Call :=
  ⟨.PUT, "/overtime/" ++ jsToString uid ++ "/" ++ jsToString otId ++ "/status",
    .obj [("status", status)]⟩

def submitReport (week_start week_end summary : Json) : Call :=
  ⟨.POST, "/reports",
    .obj [("week_start", week_start), ("week_end", week_end), ("summary", summary)]⟩

def getMyReports : Call := ⟨.GET, "/reports/me", .null⟩

def getAllReports : Call := ⟨.GET, "/reports/all", .null⟩

def updateReportStatus (uid reportId status : Json) : Call :=
  ⟨.PUT, "/reports/" ++ jsToString uid ++ "/" ++ jsToString reportId ++ "/status",
    .obj [("status", status)]⟩

def generatePayroll (data : Json) : Call := ⟨.POST, "/payroll", data⟩

def getMyPayroll : Call := ⟨.GET, "/payroll/me", .null⟩

def getEmployeePayroll (uid : Json) : Call :=
  ⟨.GET, "/payroll/" ++ jsToString uid, .null⟩

def getAllUsers : Call := ⟨.GET, "/users", .null⟩

def getMyProfile : Call := ⟨.GET, "/users/me", .null⟩

def createUser (data : Json) : Call := ⟨.POST, "/users", data⟩

def updateUser (uid data : Json) : Call :=
  ⟨.PUT, "/users/" ++ jsToString uid, data⟩

def toggleUserStatus (uid status : Json) : Call :=
  ⟨.PUT, "/users/" ++ jsToString uid ++ "/status", .obj [("status", status)]⟩

/-- The method set the spec constrains the generic primitive to. -/
def allowedMethods : List Method := [.GET, .POST, .PUT]

/-! ## Claims -/

/-- C1, counterexample.  The claim says a failure body with a `detail`
field yields that field as the message for every string, but the source
computes `data.detail || 'API error'` with JavaScript truthiness: for
the failure body with `detail` the empty string, the raised error's
message is `API error`, not the empty string. -/
theorem C1_counterexample_empty_detail :
    (apiCall ⟨some "tok", none, ⟨400, Json.obj [("detail", Json.str "")]⟩⟩
        verifyToken).fst = .error ⟨"API error"⟩ ∧
    ("API error" : String) ≠ "" :=
  ⟨rfl, by decide⟩

/-- C1, amended.  On a non-success status: the raised error's message is
the response body's `detail` field when that field is present and truthy
(in particular any non-empty string); it is `API error` when the field
reads as `undefined` (which excludes a `null` body, where the property
access itself throws) or is present but falsy — the empty string, `0`,
`false` or `null`; and when the whole failure body is JSON `null` the
operation instead throws the TypeError of the `null` property access,
which is not the `API error` Error. -/
theorem C1_amended_error_message (t : String) (vite : Option String)
    (r : Response) (c : Call) (hok : resOk r = false) :
    (∀ X : String, X ≠ "" → jsGet r.body "detail" = .ok (some (Json.str X)) →
      (apiCall ⟨some t, vite, r⟩ c).fst = .error ⟨X⟩) ∧
    (jsGet r.body "detail" = .ok none →
      (apiCall ⟨some t, vite, r⟩ c).fst = .error ⟨"API error"⟩) ∧
    (∀ v : Json, truthy v = false → jsGet r.body "detail" = .ok (some v) →
      (apiCall ⟨some t, vite, r⟩ c).fst = .error ⟨"API error"⟩) ∧
    (r.body = Json.null →
      (apiCall ⟨some t, vite, r⟩ c).fst = .error (typeErrorNullRead "detail")) ∧
    typeErrorNullRead "detail" ≠ (⟨"API error"⟩ : JsError) := by
  refine ⟨?_, ?_, ?_, ?_, by decide⟩
  · intro X hX hd
    simp [apiCall, getToken, hok, detailOr, hd, truthy, jsToString, hX]
  · intro hd
    simp [apiCall, getToken, hok, detailOr, hd]
  · intro v hv hd
    simp [apiCall, getToken, hok, detailOr, hd, hv]
  · intro hnull
    simp [apiCall, getToken, hok, jsGet, hnull]

/-- C1, witness for the amended theorem at a concrete failure. -/
theorem C1_amended_error_message_witness :
    (apiCall ⟨some "tok", none, ⟨500, Json.obj [("detail", Json.str "boom")]⟩⟩
        verifyToken).fst = .error ⟨"boom"⟩ :=
  (C1_amended_error_message "tok" none ⟨500, Json.obj [("detail", Json.str "boom")]⟩
      verifyToken rfl).1 "boom" (by decide) rfl

/-- C2.  For any operation (any `Call` a wrapper can produce), a
response with status in the success range resolves with the parsed body
unchanged, whatever its JSON shape. -/
theorem C2_success_identity (t : String) (vite : Option String)
    (r : Response) (c : Call) (hok : resOk r = true) :
    (apiCall ⟨some t, vite, r⟩ c).fst = .ok r.body := by
  simp [apiCall, getToken, hok]

/-- C2, witness: a 200 response with an array body round-trips. -/
theorem C2_success_identity_witness :
    (apiCall ⟨some "tok", none, ⟨200, Json.arr [Json.num 1, Json.str "a"]⟩⟩
        getMyLeave).fst = .ok (Json.arr [Json.num 1, Json.str "a"]) :=
  C2_success_identity "tok" none ⟨200, Json.arr [Json.num 1, Json.str "a"]⟩
    getMyLeave rfl

/-- C3.  With no signed-in user, any operation fails with the
unauthenticated error (message `Not authenticated`, thrown by
`getToken`) and the list of issued requests is empty: the failure
happens before any fetch. -/
theorem C3_unauthenticated_no_fetch (vite : Option String) (r : Response) (c : Call) :
    apiCall ⟨none, vite, r⟩ c = (.error ⟨"Not authenticated"⟩, []) := rfl

/-- C4.  With a resolved token `t`, any operation issues exactly one
request, and that request carries exactly the two headers
`Content-Type: application/json` and `Authorization: Bearer t`. -/
theorem C4_request_headers (t : String) (vite : Option String)
    (r : Response) (c : Call) :
    (apiCall ⟨some t, vite, r⟩ c).snd =
      [{ url := API_URL vite ++ c.endpoint
         method := c.method
         headers := [("Content-Type", "application/json"),
                     ("Authorization", "Bearer " ++ t)]
         body := if truthy c.body then some (stringify c.body) else none }] := rfl

/-- C5.  Every exported wrapper, at every argument, hands `apiCall` a
method drawn from the three-element set GET, POST, PUT; DELETE is not in
that set, so no wrapper uses it. -/
theorem C5_methods_constrained :
    verifyToken.method ∈ allowedMethods ∧
    (∀ a b : Json, (timeIn a b).method ∈ allowedMethods) ∧
    (∀ a b c : Json, (timeOut a b c).method ∈ allowedMethods) ∧
    getMyAttendance.method ∈ allowedMethods ∧
    (∀ d : Json, (getAllAttendance d).method ∈ allowedMethods) ∧
    (∀ a b : Json, (bulkTimeOut a b).method ∈ allowedMethods) ∧
    (∀ a b c d : Json, (fileLeave a b c d).method ∈ allowedMethods) ∧
    getMyLeave.method ∈ allowedMethods ∧
    getAllLeave.method ∈ allowedMethods ∧
    (∀ a b c : Json, (updateLeaveStatus a b c).method ∈ allowedMethods) ∧
    (∀ a b c : Json, (fileOvertime a b c).method ∈ allowedMethods) ∧
    getMyOvertime.method ∈ allowedMethods ∧
    getAllOvertime.method ∈ allowedMethods ∧
    (∀ a b c : Json, (updateOTStatus a b c).method ∈ allowedMethods) ∧
    (∀ a b c : Json, (submitReport a b c).method ∈ allowedMethods) ∧
    getMyReports.method ∈ allowedMethods ∧
    getAllReports.method ∈ allowedMethods ∧
    (∀ a b c : Json, (updateReportStatus a b c).method ∈ allowedMethods) ∧
    (∀ a : Json, (generatePayroll a).method ∈ allowedMethods) ∧
    getMyPayroll.method ∈ allowedMethods ∧
    (∀ a : Json, (getEmployeePayroll a).method ∈ allowedMethods) ∧
    getAllUsers.method ∈ allowedMethods ∧
    getMyProfile.method ∈ allowedMethods ∧
    (∀ a : Json, (createUser a).method ∈ allowedMethods) ∧
    (∀ a b : Json, (updateUser a b).method ∈ allowedMethods) ∧
    (∀ a b : Json, (toggleUserStatus a b).method ∈ allowedMethods) ∧
    allowedMethods.contains Method.DELETE = false := by
  refine ⟨?_, ?_, ?_, ?_, ?_, ?_, ?_, ?_, ?_, ?_, ?_, ?_, ?_, ?_, ?_, ?_, ?_,
    ?_, ?_, ?_, ?_, ?_, ?_, ?_, ?_, ?_, ?_⟩ <;> intros <;>
    first
    | decide
    | simp [allowedMethods, timeIn, timeOut, getAllAttendance, bulkTimeOut,
        fileLeave, updateLeaveStatus, fileOvertime, updateOTStatus, submitReport,
        updateReportStatus, generatePayroll, getEmployeePayroll, createUser,
        updateUser, toggleUserStatus]

/-- C6.  With a (non-empty) date string, `getAllAttendance` requests the
path `/attendance/all?date=` followed by the date — the query suffix is
appended exactly once — and with the date omitted the path is
`/attendance/all`, with no query string. -/
theorem C6_getAllAttendance_date_path (d : String) (hd : d ≠ "") :
    (getAllAttendance (Json.str d)).endpoint = "/attendance/all?date=" ++ d ∧
    getAllAttendance.endpoint = "/attendance/all" := by
  refine ⟨?_, rfl⟩
  simp [getAllAttendance, truthy, jsToString, hd]
  rw [← String.append_assoc]
  have h : "/attendance/all" ++ "?date=" = "/attendance/all?date=" := by decide
  rw [h]

/-- C6, witness at a concrete date. -/
theorem C6_getAllAttendance_date_path_witness :
    (getAllAttendance (Json.str "2024-01-01")).endpoint =
        "/attendance/all?date=2024-01-01" ∧
    getAllAttendance.endpoint = "/attendance/all" :=
  C6_getAllAttendance_date_path "2024-01-01" (by decide)

/-- C7.  `timeOut` applied to two arguments uses the declared default
for the third: the body is the object with the given `time_out` and
`total_hours` and with `extra_hours` equal to `0`. -/
theorem C7_timeOut_default_extra_hours (a b : Json) :
    (timeOut a b).body =
      Json.obj [("time_out", a), ("total_hours", b), ("extra_hours", Json.num 0)] := rfl

/-- C8.  `timeIn("09:00", "present")` issues exactly one request: POST
to `/attendance/time-in` (under the configured base URL), with the two
standard headers and the body serialized to the exact JSON text given in
the claim. -/
theorem C8_timeIn_request (t : String) (vite : Option String) (r : Response) :
    (apiCall ⟨some t, vite, r⟩ (timeIn (Json.str "09:00") (Json.str "present"))).snd =
      [{ url := API_URL vite ++ "/attendance/time-in"
         method := .POST
         headers := [("Content-Type", "application/json"),
                     ("Authorization", "Bearer " ++ t)]
         body := some "\x7b\"time_in\":\"09:00\",\"status\":\"present\"\x7d" }] := rfl

/-- C9.  `getAllAttendance` with the empty string as date requests
`/attendance/all` with no query string; indeed the whole `Call` equals
the one made with the date omitted, because the source tests the date
for truthiness, not presence. -/
theorem C9_empty_date_no_query :
    (getAllAttendance (Json.str "")).endpoint = "/attendance/all" ∧
    getAllAttendance (Json.str "") = getAllAttendance :=
  ⟨rfl, rfl⟩

/-- C10.  A request's body is the serialized call body exactly when that
body is truthy (first conjunct, for every call); consequently
`generatePayroll`, `createUser` and `updateUser` applied to any falsy
payload issue their one request with no body at all. -/
theorem C10_body_iff_truthy (t uid : String) (vite : Option String)
    (r : Response) (c : Call) (b : Json) (hb : truthy b = false) :
    ((apiCall ⟨some t, vite, r⟩ c).snd.map Request.body) =
      [if truthy c.body then some (stringify c.body) else none] ∧
    ((apiCall ⟨some t, vite, r⟩ (generatePayroll b)).snd.map Request.body) = [none] ∧
    ((apiCall ⟨some t, vite, r⟩ (createUser b)).snd.map Request.body) = [none] ∧
    ((apiCall ⟨some t, vite, r⟩ (updateUser (Json.str uid) b)).snd.map Request.body) =
      [none] := by
  refine ⟨rfl, ?_, ?_, ?_⟩ <;>
    simp [apiCall, getToken, generatePayroll, createUser, updateUser, hb]

/-- C10, witness: `generatePayroll 0` issues a body-less request. -/
theorem C10_body_iff_truthy_witness :
    ((apiCall ⟨some "tok", none, ⟨200, Json.null⟩⟩
        (generatePayroll (Json.num 0))).snd.map Request.body) = [none] :=
  (C10_body_iff_truthy "tok" "u1" none ⟨200, Json.null⟩ verifyToken
      (Json.num 0) rfl).2.1

end SummitApi
